import Mathlib

/-!
Verification of the housekeeper HPC job-management library: a shallow
embedding of its log whitelist matcher, log classifier, failure detector,
scheduler status mappings and retry path, with theorems checking the
natural-language specification against the code.
-/

/-- Python `str.lower()` (ASCII range). -/
def pyLower (s : String) : String := String.mk (s.toList.map Char.toLower)

/-- Python `str.upper()` (ASCII range). -/
def pyUpper (s : String) : String := String.mk (s.toList.map Char.toUpper)

/-- Python `str.strip()` with no argument: drop whitespace from both
ends. -/
def pyStrip (s : String) : String :=
  String.mk (((s.toList.dropWhile Char.isWhitespace).reverse.dropWhile
    Char.isWhitespace).reverse)

/-- Accumulator pass behind `pySplit`: `cur` holds the current word's
characters in reverse. -/
def pySplitAux : List Char → List Char → List String
  | [], cur => if cur.isEmpty then [] else [String.mk cur.reverse]
  | c :: rest, cur =>
    if c.isWhitespace then
      if cur.isEmpty then pySplitAux rest []
      else String.mk cur.reverse :: pySplitAux rest []
    else pySplitAux rest (c :: cur)

/-- Python `str.split()` with no argument: split on runs of whitespace,
discarding empty pieces. -/
def pySplit (s : String) : List String := pySplitAux s.toList []

/-- Number of distinct lowercase whitespace-separated tokens shared by a
whitelist phrase and a line (the quantity compared to the threshold by
the whitelist check). -/
def sharedTokenCount (pattern line : String) : Nat :=
  ((pySplit (pyLower pattern)).toFinset ∩ (pySplit (pyLower line)).toFinset).card

/-- Embeds `is_whitelisted` from housekeeper/log_checker.py: a line is
whitelisted when some whitelist pattern shares at least `match_threshold`
lowercase words with it. -/
def is_whitelisted (line : String) (whitelist : List String) (match_threshold : Nat) : Bool :=
  if whitelist.isEmpty then false
  else
    let line_words := (pySplit (pyLower line)).toFinset
    whitelist.any fun pattern =>
      let pattern_words := (pySplit (pyLower pattern)).toFinset
      decide (match_threshold ≤ (pattern_words ∩ line_words).card)

/-- Embeds the configuration of the `log_parser` class from
housekeeper/tracking/log_parser.py (custom_patterns left at its default
None, so the error patterns are exactly the class defaults). -/
structure LogParser where
  error_whitelist : List String
  whitelist_threshold : Nat
  case_sensitive : Bool
deriving Repr

/-- Embeds the `is_whitelisted` method of the `log_parser` class from
housekeeper/tracking/log_parser.py. -/
def LogParser.is_whitelisted (lp : LogParser) (line : String) : Bool :=
  if lp.error_whitelist.isEmpty then false
  else
    let line_lower := if lp.case_sensitive then line else pyLower line
    lp.error_whitelist.any fun white_error =>
      let white_lower := if lp.case_sensitive then white_error else pyLower white_error
      let white_words := (pySplit white_lower).toFinset
      let error_words := (pySplit line_lower).toFinset
      decide (lp.whitelist_threshold ≤ (white_words ∩ error_words).card)

/-- C1: the whitelist check (both the module-level `is_whitelisted` of
log_checker.py and the `log_parser.is_whitelisted` method with the default
case-insensitive configuration) returns true if and only if some whitelist
phrase shares at least the threshold many lowercase whitespace-separated
tokens with the line. -/
theorem is_whitelisted_iff_shared_tokens (line : String) (wl : List String) (t : Nat) :
    (is_whitelisted line wl t = true ↔ ∃ p ∈ wl, t ≤ sharedTokenCount p line)
    ∧ (LogParser.is_whitelisted ⟨wl, t, false⟩ line = true ↔
        ∃ p ∈ wl, t ≤ sharedTokenCount p line) := by
  constructor
  · cases wl with
    | nil => simp [is_whitelisted]
    | cons a l =>
      simp [is_whitelisted, sharedTokenCount, List.any_eq_true]
  · cases wl with
    | nil => simp [LogParser.is_whitelisted]
    | cons a l =>
      simp [LogParser.is_whitelisted, sharedTokenCount, List.any_eq_true]

/-- Word character in the sense of the regex class used by the source's
error patterns (ASCII letters, digits, underscore). -/
def isWordChar (c : Char) : Bool := c.isAlphanum || c == '_'

/-- Plain substring occurrence, as Python's `in` operator and an
unanchored regex search for a literal pattern. -/
def substrSearch (pat s : String) : Bool :=
  let p := pat.toList
  let cs := s.toList
  (List.range (cs.length + 1)).any fun i => p.isPrefixOf (cs.drop i)

/-- Does the pattern occur here, bounded by non-word characters on both
sides (regex word boundaries around a pattern made of word characters)?
`prev` is the character just before the current position, if any. -/
def wordAt (p : List Char) (s : List Char) (prev : Option Char) : Bool :=
  p.isPrefixOf s &&
    (match prev with
     | none => true
     | some c => !isWordChar c) &&
    (match (s.drop p.length).head? with
     | none => true
     | some c => !isWordChar c)

/-- Scan all positions of the string for a word-boundary-delimited
occurrence of the pattern. -/
def wordSearchAux (p : List Char) (prev : Option Char) : List Char → Bool
  | [] => wordAt p [] prev
  | c :: rest => wordAt p (c :: rest) prev || wordSearchAux p (some c) rest

/-- Regex search for a pattern of word characters between two word
boundaries, as in the source's raw pattern strings of the form
backslash-b word backslash-b. -/
def wordSearch (pat s : String) : Bool :=
  wordSearchAux pat.toList none s.toList

/-- Embeds the `default_error_patterns` of the `log_parser` class: the
line (already case-folded by the caller when matching is
case-insensitive) matches when any of the nine default patterns matches. -/
def matchesDefaultPattern (line : String) : Bool :=
  wordSearch "error" line || wordSearch "exception" line ||
  wordSearch "failed" line || wordSearch "failure" line ||
  substrSearch "segmentation fault" line || substrSearch "core dumped" line ||
  wordSearch "killed" line || substrSearch "traceback" line ||
  wordSearch "severe" line

/-- One line of the parse loop's pattern test: with the default
configuration the patterns are lowercase, and case-insensitive search is
search of the case-folded line. -/
def LogParser.line_is_error (lp : LogParser) (line : String) : Bool :=
  matchesDefaultPattern (if lp.case_sensitive then line else pyLower line)

/-- Embeds the `log_result` dataclass of
housekeeper/tracking/log_parser.py. -/
structure log_result where
  has_errors : Bool
  error_lines : List String
  total_errors : Nat
  whitelisted_errors : Nat
deriving Repr, DecidableEq

/-- Model of the filesystem the log parser and failure detector read:
a path-to-lines table for ordinary files, and the result list of a glob
call for wildcard patterns. -/
structure fs_model where
  files : List (String × List String)
  globfn : String → List String

/-- Reading a file in the filesystem model. -/
def fs_model.read (fs : fs_model) (p : String) : Option (List String) :=
  fs.files.lookup p

/-- Path existence in the filesystem model. -/
def fs_model.pathExists (fs : fs_model) (p : String) : Bool :=
  (fs.read p).isSome

/-- Python line truncation from the parse loop: lines longer than 500
characters are cut to their first 500 characters with an ellipsis
appended. -/
def truncate500 (line : String) : String :=
  if 500 < line.length then String.mk (line.toList.take 500) ++ "..." else line

/-- One non-empty line of the parse loop body: bump the totals and keep
the (truncated) line when it is a non-whitelisted error. Returns the
surviving error lines, the total error count, and the whitelisted count. -/
def scan_step (lp : LogParser) (line : String) (acc : List String) (t w : Nat) :
    List String × Nat × Nat :=
  if lp.line_is_error line then
    if lp.is_whitelisted line then (acc, t + 1, w + 1)
    else (acc ++ [truncate500 line], t + 1, w)
  else (acc, t, w)

/-- Embeds the scanning loop of `log_parser.parse`: strip each line, skip
empty ones, classify the rest, and stop once 50 error lines have been
kept. -/
def parse_lines (lp : LogParser) : List String → List String → Nat → Nat →
    List String × Nat × Nat
  | [], acc, t, w => (acc, t, w)
  | l :: rest, acc, t, w =>
    let line := pyStrip l
    if line = "" then parse_lines lp rest acc t w
    else
      let s := scan_step lp line acc t w
      if 50 ≤ s.1.length then s
      else parse_lines lp rest s.1 s.2.1 s.2.2

/-- The source's tail-of-file selection: when the file has more than
`max_lines` lines, keep only the last `max_lines`. -/
def lastN (max_lines : Nat) (lines : List String) : List String :=
  if max_lines < lines.length then lines.drop (lines.length - max_lines) else lines

/-- Embeds `log_parser.parse`: a missing file yields an empty result;
otherwise the last `max_lines` lines are scanned. -/
def LogParser.parse (lp : LogParser) (fs : fs_model) (log_path : String)
    (max_lines : Nat) : log_result :=
  match fs.read log_path with
  | none => ⟨false, [], 0, 0⟩
  | some lines =>
    let r := parse_lines lp (lastN max_lines lines) [] 0 0
    ⟨decide (0 < r.1.length), r.1, r.2.1, r.2.2⟩

/-- Embeds `log_parser.parse_multiple`: parse each path with the default
line bound of 10000 and aggregate the results in order. -/
def LogParser.parse_multiple (lp : LogParser) (fs : fs_model) (log_paths : List String) :
    log_result :=
  let results := log_paths.map fun p => lp.parse fs p 10000
  let all_error_lines := (results.map log_result.error_lines).flatten
  ⟨decide (0 < all_error_lines.length), all_error_lines,
   (results.map log_result.total_errors).sum,
   (results.map log_result.whitelisted_errors).sum⟩

/-- Job status values of the tracking implementation (the lowercase `job`
module is absent from the source tree; the members are those used by
failure_detector.py and the build-tree schedulers, matching the lifecycle
of spec section 3). -/
inductive job_status
  | pending | queued | running | completed | failed | cancelled | timeout | unknown
deriving DecidableEq, Repr

/-- Failure kinds of the tracking implementation (members as used by
failure_detector.py, completed with the taxonomy of spec section 7). -/
inductive failure_type
  | scheduler | exit_code | log_error | missing_file | timeout | dependency | unknown
deriving DecidableEq, Repr

/-- The fields of the tracking implementation's `job` record that the
failure detector reads (the lowercase job module is absent from the
source tree; fields follow its uses in failure_detector.py and the
data model of spec section 3). -/
structure job where
  status : job_status
  exit_code : Option Int
  stdout_path : Option String
  stderr_path : Option String
  expected_files : List String

/-- Embeds `failure_detector.check_expected_files`: a pattern with a
wildcard is missing when its glob has no matches, a plain path when it
does not exist; missing patterns are returned in order. -/
def check_expected_files (fs : fs_model) (expected_files : List String) : List String :=
  expected_files.filter fun file_pattern =>
    if file_pattern.contains '*' || file_pattern.contains '?' then
      (fs.globfn file_pattern).isEmpty
    else
      !(fs.pathExists file_pattern)

/-- Step 4 of `failure_detector.detect`: the expected-output-files check,
with its reason listing at most 5 missing patterns plus an overflow
count. -/
def detect_files (fs : fs_model) (j : job) :
    Bool × Option failure_type × Option String × List String :=
  let missing := check_expected_files fs j.expected_files
  if missing.isEmpty then (false, none, none, [])
  else
    let reason := "missing output files: " ++ String.intercalate ", " (missing.take 5) ++
      (if 5 < missing.length then " and " ++ toString (missing.length - 5) ++ " more" else "")
    (true, some failure_type.missing_file, some reason, [])

/-- The log streams `failure_detector.detect` hands to the log parser:
the stderr path then the stdout path, each only when set and existing. -/
def detect_log_files (fs : fs_model) (j : job) : List String :=
  (match j.stderr_path with
   | some p => if fs.pathExists p then [p] else []
   | none => []) ++
  (match j.stdout_path with
   | some p => if fs.pathExists p then [p] else []
   | none => [])

/-- Steps 3 and 4 of `failure_detector.detect`: run the log parser over
the available streams; a result with errors yields a log_error verdict
with the first 20 kept lines as evidence, otherwise the expected-files
check decides. -/
def detect_logs (lp : LogParser) (fs : fs_model) (j : job) :
    Bool × Option failure_type × Option String × List String :=
  let log_files := detect_log_files fs j
  if log_files.isEmpty then detect_files fs j
  else
    let result := lp.parse_multiple fs log_files
    if result.has_errors then
      (true, some failure_type.log_error,
       some ("found " ++ toString result.error_lines.length ++ " error(s) in logs"),
       result.error_lines.take 20)
    else detect_files fs j

/-- Embeds `failure_detector.detect` of
housekeeper/tracking/failure_detector.py: scheduler status first, then
exit code, then logs, then expected files. -/
def failure_detector.detect (lp : LogParser) (fs : fs_model) (j : job) :
    Bool × Option failure_type × Option String × List String :=
  if j.status = job_status.failed then
    (true, some failure_type.scheduler, some "scheduler reported failure", [])
  else if j.status = job_status.cancelled then
    (true, some failure_type.scheduler, some "job was cancelled", [])
  else if j.status = job_status.timeout then
    (true, some failure_type.timeout, some "job exceeded walltime", [])
  else
    match j.exit_code with
    | some c =>
      if c ≠ 0 then
        (true, some failure_type.exit_code, some ("exit code " ++ toString c), [])
      else detect_logs lp fs j
    | none => detect_logs lp fs j

/-- C2: for a job whose recorded status is none of failed, cancelled or
timed out, a non-null non-zero exit code makes the failure detector
return a failed verdict of kind exit_code whose reason carries the code,
for every filesystem (so regardless of log content and of missing
expected files). -/
theorem detect_exit_code_precedence (lp : LogParser) (fs : fs_model) (j : job) (c : Int)
    (h1 : j.status ≠ job_status.failed) (h2 : j.status ≠ job_status.cancelled)
    (h3 : j.status ≠ job_status.timeout) (h4 : j.exit_code = some c) (h5 : c ≠ 0) :
    failure_detector.detect lp fs j =
      (true, some failure_type.exit_code, some ("exit code " ++ toString c), []) := by
  simp [failure_detector.detect, h1, h2, h3, h4, h5]

/-- Witness for C2: a job with status completed, exit code 1 and a
missing expected file is classified exit_code, not missing_file. -/
theorem detect_exit_code_precedence_witness :
    failure_detector.detect ⟨[], 3, false⟩ ⟨[], fun _ => []⟩
        ⟨job_status.completed, some 1, none, none, ["out.txt"]⟩ =
      (true, some failure_type.exit_code, some ("exit code " ++ toString (1 : Int)), []) :=
  detect_exit_code_precedence ⟨[], 3, false⟩ ⟨[], fun _ => []⟩
    ⟨job_status.completed, some 1, none, none, ["out.txt"]⟩ 1
    (by decide) (by decide) (by decide) rfl (by decide)

/-- The empty stream list parses to an empty aggregate result. -/
theorem parse_multiple_nil (lp : LogParser) (fs : fs_model) :
    lp.parse_multiple fs [] = ⟨false, [], 0, 0⟩ := by
  simp [LogParser.parse_multiple]

/-- C3: a job that reaches the log-check step (status none of failed,
cancelled or timed out; exit code null or zero) and whose available log
streams parse to a result with errors is classified log_error, with
evidence the first 20 kept lines and a reason carrying the count of kept
matching lines. -/
theorem detect_log_error_verdict (lp : LogParser) (fs : fs_model) (j : job)
    (h1 : j.status ≠ job_status.failed) (h2 : j.status ≠ job_status.cancelled)
    (h3 : j.status ≠ job_status.timeout)
    (h4 : j.exit_code = none ∨ j.exit_code = some 0)
    (h5 : (lp.parse_multiple fs (detect_log_files fs j)).has_errors = true) :
    failure_detector.detect lp fs j =
      (true, some failure_type.log_error,
       some ("found " ++
         toString (lp.parse_multiple fs (detect_log_files fs j)).error_lines.length ++
         " error(s) in logs"),
       (lp.parse_multiple fs (detect_log_files fs j)).error_lines.take 20) := by
  have hne : (detect_log_files fs j).isEmpty = false := by
    cases hemp : (detect_log_files fs j).isEmpty with
    | false => rfl
    | true =>
      rw [List.isEmpty_iff] at hemp
      rw [hemp, parse_multiple_nil] at h5
      simp at h5
  have hlogs : detect_logs lp fs j =
      (true, some failure_type.log_error,
       some ("found " ++
         toString (lp.parse_multiple fs (detect_log_files fs j)).error_lines.length ++
         " error(s) in logs"),
       (lp.parse_multiple fs (detect_log_files fs j)).error_lines.take 20) := by
    simp [detect_logs, hne, h5]
  rcases h4 with h4 | h4 <;>
    simp [failure_detector.detect, h1, h2, h3, h4, hlogs]

/-- Witness for C3: a completed job with exit code 0 and a stderr file
holding one error line is classified log_error with that line as
evidence and a reason reporting one error. -/
theorem detect_log_error_verdict_witness :
    failure_detector.detect ⟨[], 3, false⟩
        ⟨[("job.err", ["ERROR: something bad happened"])], fun _ => []⟩
        ⟨job_status.completed, some 0, none, some "job.err", []⟩ =
      (true, some failure_type.log_error,
       some ("found " ++
         toString (LogParser.parse_multiple ⟨[], 3, false⟩
           ⟨[("job.err", ["ERROR: something bad happened"])], fun _ => []⟩
           (detect_log_files ⟨[("job.err", ["ERROR: something bad happened"])], fun _ => []⟩
             ⟨job_status.completed, some 0, none, some "job.err", []⟩)).error_lines.length ++
         " error(s) in logs"),
       (LogParser.parse_multiple ⟨[], 3, false⟩
           ⟨[("job.err", ["ERROR: something bad happened"])], fun _ => []⟩
           (detect_log_files ⟨[("job.err", ["ERROR: something bad happened"])], fun _ => []⟩
             ⟨job_status.completed, some 0, none, some "job.err", []⟩)).error_lines.take 20) :=
  detect_log_error_verdict ⟨[], 3, false⟩
    ⟨[("job.err", ["ERROR: something bad happened"])], fun _ => []⟩
    ⟨job_status.completed, some 0, none, some "job.err", []⟩
    (by decide) (by decide) (by decide) (Or.inr rfl) (by rfl)

/-- A scan step grows the kept-lines list by at most one entry. -/
theorem scan_step_length_le (lp : LogParser) (line : String) (acc : List String) (t w : Nat) :
    (scan_step lp line acc t w).1.length ≤ acc.length + 1 := by
  simp only [scan_step]
  split
  · split
    · simp
    · simp
  · simp

/-- The kept error lines never exceed 50 entries: the loop stops as soon
as 50 are retained, and each step adds at most one. -/
theorem parse_lines_length_le (lp : LogParser) (rest : List String) :
    ∀ acc t w, acc.length < 50 → (parse_lines lp rest acc t w).1.length ≤ 50 := by
  induction rest with
  | nil =>
    intro acc t w h
    simpa [parse_lines] using Nat.le_of_lt h
  | cons l ls ih =>
    intro acc t w h
    simp only [parse_lines]
    split
    · exact ih acc t w h
    · have hb := scan_step_length_le lp (pyStrip l) acc t w
      split
      · omega
      · next h50 => exact ih _ _ _ (by omega)

/-- A truncated retained line holds at most 503 characters (500 of
content plus the ellipsis). -/
theorem truncate500_length_le (s : String) : (truncate500 s).length ≤ 503 := by
  simp only [truncate500]
  split
  · rw [String.length_append]
    have h1 : (String.mk (s.toList.take 500)).length ≤ 500 := by
      show (s.toList.take 500).length ≤ 500
      exact List.length_take_le 500 s.toList
    have h2 : ("..." : String).length = 3 := rfl
    omega
  · next h => omega

/-- A scan step only ever adds truncated lines, so a 503-character bound
on the accumulator is preserved. -/
theorem scan_step_length_all (lp : LogParser) (line : String) (acc : List String) (t w : Nat)
    (hacc : ∀ x ∈ acc, x.length ≤ 503) :
    ∀ x ∈ (scan_step lp line acc t w).1, x.length ≤ 503 := by
  simp only [scan_step]
  split
  · split
    · exact hacc
    · intro x hx
      rcases List.mem_append.1 hx with hx | hx
      · exact hacc x hx
      · simp only [List.mem_singleton] at hx
        subst hx
        exact truncate500_length_le _
  · exact hacc

/-- Every line the scanning loop retains is at most 503 characters. -/
theorem parse_lines_length_all (lp : LogParser) (rest : List String) :
    ∀ acc t w, (∀ x ∈ acc, x.length ≤ 503) →
      ∀ x ∈ (parse_lines lp rest acc t w).1, x.length ≤ 503 := by
  induction rest with
  | nil =>
    intro acc t w h
    simpa [parse_lines] using h
  | cons l ls ih =>
    intro acc t w h
    simp only [parse_lines]
    split
    · exact ih acc t w h
    · split
      · exact scan_step_length_all lp (pyStrip l) acc t w h
      · exact ih _ _ _ (scan_step_length_all lp (pyStrip l) acc t w h)

/-- Outcome of one external scheduler-tool invocation: the tool is
absent (FileNotFoundError) or ran with a return code and stdout. -/
inductive cmd_result
  | absent
  | ran (returncode : Int) (stdout : String)

/-- Python `str.split` on a newline separator (empty pieces kept). -/
def splitLinesAux : List Char → List Char → List String
  | [], cur => [String.mk cur.reverse]
  | c :: rest, cur =>
    if c = '\n' then String.mk cur.reverse :: splitLinesAux rest []
    else splitLinesAux rest (c :: cur)

/-- Split a string into its newline-separated pieces. -/
def splitLines (s : String) : List String := splitLinesAux s.toList []

/-- Embeds the `state_map` dictionary of `SLURMScheduler.get_status`
(housekeeper/scheduler/slurm.py): the coarse mapping of squeue states,
sending CANCELLED, TIMEOUT, NODE_FAIL and PREEMPTED all to failed. -/
def SLURMScheduler.map_squeue_state (state : String) : String :=
  if state = "PENDING" then "pending"
  else if state = "RUNNING" then "running"
  else if state = "COMPLETING" then "running"
  else if state = "COMPLETED" then "completed"
  else if state = "FAILED" then "failed"
  else if state = "CANCELLED" then "failed"
  else if state = "TIMEOUT" then "failed"
  else if state = "NODE_FAIL" then "failed"
  else if state = "PREEMPTED" then "failed"
  else "unknown"

/-- The scanning loop of `SLURMScheduler._check_completed_job` over the
sacct state lines: the first stripped non-empty state containing
COMPLETED gives completed, containing FAILED or CANCELLED gives failed;
otherwise the scan continues, and the fall-through answer is completed. -/
def sacct_states_verdict : List String → String
  | [] => "completed"
  | st :: rest =>
    let state := pyUpper (pyStrip st)
    if state = "" then sacct_states_verdict rest
    else if substrSearch "COMPLETED" state then "completed"
    else if substrSearch "FAILED" state || substrSearch "CANCELLED" state then "failed"
    else sacct_states_verdict rest

/-- Embeds `SLURMScheduler._check_completed_job`: when sacct is absent,
errors, or reports no history, the job is assumed completed. -/
def SLURMScheduler.check_completed_job (sacct : cmd_result) : String :=
  match sacct with
  | .absent => "completed"
  | .ran rc out =>
    if rc = 0 ∧ pyStrip out ≠ "" then sacct_states_verdict (splitLines (pyStrip out))
    else "completed"

/-- Embeds `SLURMScheduler.get_status`: consult squeue, falling back to
sacct when the job is no longer queued. -/
def SLURMScheduler.get_status (squeue sacct : cmd_result) : String :=
  match squeue with
  | .absent => "unknown"
  | .ran rc out =>
    if rc ≠ 0 ∨ pyStrip out = "" then SLURMScheduler.check_completed_job sacct
    else SLURMScheduler.map_squeue_state (pyUpper (pyStrip out))

/-- Embeds `slurm_scheduler._check_history` of the build-tree
implementation (src/build/lib/housekeeper/scheduler/slurm.py): the
granular mapping of sacct history states, distinguishing timeout and
cancelled from failed. -/
def slurm_scheduler.check_history (sacct : cmd_result) : job_status :=
  match sacct with
  | .absent => job_status.unknown
  | .ran rc out =>
    if rc = 0 ∧ pyStrip out ≠ "" then
      let state := pyUpper (pyStrip out)
      if substrSearch "COMPLETED" state then job_status.completed
      else if substrSearch "TIMEOUT" state then job_status.timeout
      else if substrSearch "CANCELLED" state then job_status.cancelled
      else if substrSearch "FAILED" state || substrSearch "NODE_FAIL" state then
        job_status.failed
      else job_status.failed
    else job_status.unknown

/-- Embeds `slurm_scheduler.status` of the build-tree implementation:
squeue states PENDING, RUNNING, COMPLETING map to queued and running,
anything else in-queue to unknown, and jobs out of the queue are looked
up in the sacct history. -/
def slurm_scheduler.status (squeue sacct : cmd_result) : job_status :=
  match squeue with
  | .absent => job_status.unknown
  | .ran rc out =>
    if rc = 0 ∧ pyStrip out ≠ "" then
      let state := pyUpper (pyStrip out)
      if state = "PENDING" then job_status.queued
      else if state = "RUNNING" then job_status.running
      else if state = "COMPLETING" then job_status.running
      else job_status.unknown
    else slurm_scheduler.check_history sacct

/-- C5 evidence: the primary SLURM backend's status poll
(`SLURMScheduler.get_status`) maps the squeue terminal states CANCELLED
and TIMEOUT to the generic string "failed" (the coarse mapping), while
the build-tree implementation's history lookup
(`slurm_scheduler._check_history`) maps them to the distinct granular
results cancelled and timeout that the specification adopts. -/
theorem slurm_coarse_mapping_divergence :
    SLURMScheduler.get_status (cmd_result.ran 0 "CANCELLED") (cmd_result.ran 0 "") = "failed"
    ∧ SLURMScheduler.get_status (cmd_result.ran 0 "TIMEOUT") (cmd_result.ran 0 "") = "failed"
    ∧ slurm_scheduler.check_history (cmd_result.ran 0 "CANCELLED") = job_status.cancelled
    ∧ slurm_scheduler.check_history (cmd_result.ran 0 "TIMEOUT") = job_status.timeout :=
  ⟨rfl, rfl, rfl, rfl⟩

/-- Match of the qstat output pattern at the current position: the
literal job_state, optional whitespace, an equals sign, optional
whitespace, then a non-empty run of word characters (the captured
state). -/
def pbsStateAt (l : List Char) : Option (List Char) :=
  if ("job_state".toList).isPrefixOf l then
    match (l.drop 9).dropWhile Char.isWhitespace with
    | '=' :: rest =>
      let w := (rest.dropWhile Char.isWhitespace).takeWhile isWordChar
      if w.isEmpty then none else some w
    | _ => none
  else none

/-- Leftmost search for the job_state pattern in the qstat output. -/
def findJobState : List Char → Option (List Char)
  | [] => none
  | c :: rest =>
    match pbsStateAt (c :: rest) with
    | some w => some w
    | none => findJobState rest

/-- Embeds the `state_map` dictionary of `PBSScheduler.get_status`
(housekeeper/scheduler/pbs.py). -/
def PBSScheduler.map_qstat_state (state : String) : String :=
  if state = "Q" then "pending"
  else if state = "H" then "pending"
  else if state = "W" then "pending"
  else if state = "R" then "running"
  else if state = "E" then "running"
  else if state = "C" then "completed"
  else if state = "F" then "failed"
  else "unknown"

/-- Embeds `PBSScheduler.get_status`: a non-zero qstat return code means
the job left the queue and is reported completed; otherwise the parsed
job_state is mapped, with unknown when it cannot be parsed or the tool
is absent. -/
def PBSScheduler.get_status (qstat : cmd_result) : String :=
  match qstat with
  | .absent => "unknown"
  | .ran rc out =>
    if rc ≠ 0 then "completed"
    else
      match findJobState out.toList with
      | some w => PBSScheduler.map_qstat_state (pyUpper (String.mk w))
      | none => "unknown"

/-- C10: a job the external tools no longer know about is reported
completed: PBS when qstat exits non-zero, SLURM when the sacct tool is
absent or its history output is empty — never failed or unknown. -/
theorem vanished_job_reported_completed (rc src : Int) (out sout : String)
    (hrc : rc ≠ 0) (hempty : pyStrip sout = "") :
    PBSScheduler.get_status (cmd_result.ran rc out) = "completed"
    ∧ SLURMScheduler.check_completed_job cmd_result.absent = "completed"
    ∧ SLURMScheduler.check_completed_job (cmd_result.ran src sout) = "completed" := by
  refine ⟨?_, rfl, ?_⟩
  · simp [PBSScheduler.get_status, hrc]
  · simp [SLURMScheduler.check_completed_job, hempty]

/-- Witness for C10: qstat exiting 1 and sacct printing nothing. -/
theorem vanished_job_reported_completed_witness :
    PBSScheduler.get_status (cmd_result.ran 1 "") = "completed"
    ∧ SLURMScheduler.check_completed_job cmd_result.absent = "completed"
    ∧ SLURMScheduler.check_completed_job (cmd_result.ran 0 "") = "completed" :=
  vanished_job_reported_completed 1 0 "" "" (by decide) rfl

/-- Job states of the main implementation (the JobState enum of
housekeeper/job.py). -/
inductive JobState
  | pending | submitted | running | completed | failed | cancelled | unknown
deriving DecidableEq, Repr

/-- Embeds the `Job` dataclass of housekeeper/job.py with its field
defaults (timestamps abstracted to tick counts; the free-form metadata
dictionary is not used by any modelled operation and is omitted). -/
structure Job where
  name : String
  job_id : Option String := none
  internal_id : Option String := none
  command : String := ""
  script_path : Option String := none
  nodes : Nat := 1
  ppn : Nat := 1
  walltime : String := "04:00:00"
  mem_gb : Option Nat := none
  gpu : Bool := false
  state : JobState := JobState.pending
  exit_code : Option Int := none
  output_file : Option String := none
  error_file : Option String := none
  log_file : Option String := none
  working_dir : Option String := none
  job_subdir : Option String := none
  after_ok : List String := []
  after_any : List String := []
  submit_time : Option Nat := none
  start_time : Option Nat := none
  end_time : Option Nat := none
  attempt : Nat := 1
  max_retries : Nat := 0
deriving DecidableEq, Repr

/-- Modelled from the spec: the persistent store consumed by the engine
(the JobDatabase class is not present under the source tree). Saving a
job is an upsert keyed by the engine-local identifier: it replaces the
record with the same internal identifier, or appends, preserving
insertion order. -/
def JobDatabase.save_job (db : List Job) (j : Job) : List Job :=
  if db.any (fun r => r.internal_id = j.internal_id) then
    db.map (fun r => if r.internal_id = j.internal_id then j else r)
  else db ++ [j]

/-- Modelled from the spec: store lookup of a job record by its
scheduler-assigned handle (first match in insertion order). -/
def JobDatabase.get_job_by_scheduler_id (db : List Job) (job_id : String) : Option Job :=
  db.find? (fun r => r.job_id = some job_id)

/-- The state the engine threads through submission and retry: the jobs
directory, the ambient working directory, the scheduler backend's script
extension and the store contents. -/
structure Housekeeper where
  jobs_dir : String
  cwd : String
  script_extension : String
  db : List Job

/-- Python's `x or default` applied to an optional string: the default
is used when the value is absent or empty. -/
def pyOrElse (v : Option String) (d : String) : String :=
  match v with
  | some w => if w = "" then d else w
  | none => d

/-- Embeds `Housekeeper.submit` of housekeeper/core.py: build the job
record with a fresh internal identifier and pending state, submit the
script through the backend (a function from script path to an optional
scheduler handle), mark the record submitted or failed accordingly, and
save it. Script writing is a filesystem side effect outside the record
model; `now` stands for datetime.now(). -/
def Housekeeper.submit (hk : Housekeeper) (sched_submit : String → Option String)
    (internal_id : String) (now : Nat) (command : String) (name : String)
    (nodes ppn : Nat) (walltime : String) (mem_gb : Option Nat) (gpu : Bool)
    (job_subdir working_dir : Option String) (after_ok after_any : List String)
    (max_retries : Nat) : Job × Housekeeper :=
  let job_dir := match job_subdir with
    | some sub => hk.jobs_dir ++ "/" ++ sub
    | none => hk.jobs_dir ++ "/" ++ name
  let script_path := job_dir ++ "/" ++ name ++ hk.script_extension
  let j : Job := {
    name := name
    internal_id := some internal_id
    command := command
    script_path := some script_path
    nodes := nodes, ppn := ppn, walltime := walltime, mem_gb := mem_gb, gpu := gpu
    output_file := some (job_dir ++ "/" ++ name ++ ".out")
    error_file := some (job_dir ++ "/" ++ name ++ ".err")
    log_file := some (job_dir ++ "/" ++ name ++ ".log")
    working_dir := some (pyOrElse working_dir hk.cwd)
    job_subdir := job_subdir
    after_ok := after_ok, after_any := after_any
    max_retries := max_retries
    state := JobState.pending }
  let j := match sched_submit script_path with
    | some jid =>
      { j with job_id := some jid, state := JobState.submitted, submit_time := some now }
    | none => { j with state := JobState.failed }
  (j, { hk with db := JobDatabase.save_job hk.db j })

/-- Embeds `Housekeeper.retry` of housekeeper/core.py: look the failed
job up by scheduler handle, refuse when the attempt count has reached
max_retries + 1, otherwise resubmit a copy (suffixed name, same command
and resources) and save it with the bumped attempt count. -/
def Housekeeper.retry (hk : Housekeeper) (sched_submit : String → Option String)
    (internal_id : String) (now : Nat) (job_id : String) : Option Job × Housekeeper :=
  match JobDatabase.get_job_by_scheduler_id hk.db job_id with
  | none => (none, hk)
  | some old_job =>
    if old_job.max_retries + 1 ≤ old_job.attempt then (none, hk)
    else
      let r := hk.submit sched_submit internal_id now old_job.command
        (old_job.name ++ "_retry" ++ toString old_job.attempt)
        old_job.nodes old_job.ppn old_job.walltime old_job.mem_gb old_job.gpu
        none old_job.working_dir [] [] old_job.max_retries
      let new_job := { r.1 with attempt := old_job.attempt + 1 }
      (some new_job, { r.2 with db := JobDatabase.save_job r.2.db new_job })

/-- C6: for a job that exists in the store, the retry path produces a
new job (rather than None) exactly when its attempt count is strictly
below max_retries + 1. -/
theorem retry_iff_attempt_lt (hk : Housekeeper) (sub : String → Option String)
    (iid : String) (now : Nat) (jid : String) (j : Job)
    (hfound : JobDatabase.get_job_by_scheduler_id hk.db jid = some j) :
    (Housekeeper.retry hk sub iid now jid).1.isSome = true ↔
      j.attempt < j.max_retries + 1 := by
  rcases Nat.lt_or_ge j.attempt (j.max_retries + 1) with h | h
  · simp only [Housekeeper.retry, hfound,
      if_neg (by omega : ¬ j.max_retries + 1 ≤ j.attempt)]
    simpa using h
  · simp only [Housekeeper.retry, hfound,
      if_pos (by omega : j.max_retries + 1 ≤ j.attempt)]
    simp only [Option.isSome_none, Bool.false_eq_true, false_iff]
    omega

/-- Witness for C6: a stored failed job on attempt 1 with max_retries 2
is resubmitted. -/
theorem retry_iff_attempt_lt_witness :
    (Housekeeper.retry ⟨"jobs", "/home/u", ".pbs",
        [{ name := "train", job_id := some "1", internal_id := some "a",
           state := JobState.failed, max_retries := 2 }]⟩
      (fun _ => some "2") "b" 0 "1").1.isSome = true :=
  (retry_iff_attempt_lt ⟨"jobs", "/home/u", ".pbs",
        [{ name := "train", job_id := some "1", internal_id := some "a",
           state := JobState.failed, max_retries := 2 }]⟩
      (fun _ => some "2") "b" 0 "1"
      { name := "train", job_id := some "1", internal_id := some "a",
        state := JobState.failed, max_retries := 2 } rfl).mpr (by decide)

/-- Counterexample for C7: a terminal failed job that exists in the
store with max_retries 0 (so attempt 1) is refused by the manual retry
path — it returns None instead of resubmitting. -/
theorem retry_zero_budget_counterexample :
    (Housekeeper.retry ⟨"jobs", "/home/u", ".pbs",
        [{ name := "t", job_id := some "42", internal_id := some "a",
           state := JobState.failed }]⟩
      (fun _ => some "43") "b" 0 "42").1 = none := rfl

/-- C7 as amended: the manual retry of a stored job is gated by the same
attempt budget as automatic retries — whenever the attempt count has
reached max_retries + 1 (in particular for any job with max_retries 0),
the retry call returns None and resubmits nothing. -/
theorem retry_refused_when_budget_exhausted (hk : Housekeeper)
    (sub : String → Option String) (iid : String) (now : Nat) (jid : String) (j : Job)
    (hfound : JobDatabase.get_job_by_scheduler_id hk.db jid = some j)
    (h : j.max_retries + 1 ≤ j.attempt) :
    (Housekeeper.retry hk sub iid now jid).1 = none := by
  simp only [Housekeeper.retry, hfound, if_pos h]

/-- Witness for the amended C7 at a cancelled job with an exhausted
budget. -/
theorem retry_refused_when_budget_exhausted_witness :
    (Housekeeper.retry ⟨"jobs", "/home/u", ".pbs",
        [{ name := "t", job_id := some "9", internal_id := some "a",
           state := JobState.cancelled, attempt := 2, max_retries := 1 }]⟩
      (fun _ => some "10") "b" 0 "9").1 = none :=
  retry_refused_when_budget_exhausted ⟨"jobs", "/home/u", ".pbs",
        [{ name := "t", job_id := some "9", internal_id := some "a",
           state := JobState.cancelled, attempt := 2, max_retries := 1 }]⟩
      (fun _ => some "10") "b" 0 "9"
      { name := "t", job_id := some "9", internal_id := some "a",
        state := JobState.cancelled, attempt := 2, max_retries := 1 }
      rfl (by decide)

/-- A record survives an upsert keyed on a different internal
identifier. -/
theorem mem_save_job_of_ne (db : List Job) (j k : Job)
    (hj : j ∈ db) (hne : j.internal_id ≠ k.internal_id) :
    j ∈ JobDatabase.save_job db k := by
  unfold JobDatabase.save_job
  split
  · exact List.mem_map.2 ⟨j, hj, if_neg hne⟩
  · exact List.mem_append_left _ hj

/-- Counterexample for C8: retrying a concrete stored failed job yields
a record that is persisted in state submitted, not in a fresh pending
state (the claimed fresh `pending` state never survives the call: the
record is already submitted, or failed, when saved and returned). -/
theorem retry_record_not_pending_counterexample :
    ((Housekeeper.retry ⟨"jobs", "/home/u", ".pbs",
        [{ name := "t", job_id := some "7", internal_id := some "a",
           state := JobState.failed, max_retries := 2 }]⟩
      (fun _ => some "8") "b" 5 "7").1.map Job.state) = some JobState.submitted :=
  rfl

/-- C8 as amended: on retry the engine creates a new Job record with the
fresh engine identifier, attempt count previous + 1 and a name suffixed
with the previous attempt number, copying command, nodes, ppn, walltime,
memory, gpu, working directory and max_retries from the failed attempt;
the record is persisted in state submitted (or failed when backend
submission fails) rather than pending, the Job record has no
parent-attempt, environment or expected-files fields to set, and the
original failed record remains unchanged in the store. -/
theorem retry_creates_new_record (hk : Housekeeper) (sub : String → Option String)
    (iid : String) (now : Nat) (jid : String) (j : Job)
    (hfound : JobDatabase.get_job_by_scheduler_id hk.db jid = some j)
    (hbudget : j.attempt < j.max_retries + 1)
    (hfresh : j.internal_id ≠ some iid) :
    ∃ j2, (Housekeeper.retry hk sub iid now jid).1 = some j2
      ∧ j2.internal_id = some iid
      ∧ j2.attempt = j.attempt + 1
      ∧ j2.name = j.name ++ "_retry" ++ toString j.attempt
      ∧ j2.command = j.command
      ∧ j2.nodes = j.nodes ∧ j2.ppn = j.ppn ∧ j2.walltime = j.walltime
      ∧ j2.mem_gb = j.mem_gb ∧ j2.gpu = j.gpu
      ∧ j2.working_dir = some (pyOrElse j.working_dir hk.cwd)
      ∧ j2.max_retries = j.max_retries
      ∧ (j2.state = JobState.submitted ∨ j2.state = JobState.failed)
      ∧ j ∈ (Housekeeper.retry hk sub iid now jid).2.db := by
  have hmem : j ∈ hk.db := by
    have := hfound
    unfold JobDatabase.get_job_by_scheduler_id at this
    exact List.mem_of_find?_eq_some this
  simp only [Housekeeper.retry, hfound,
    if_neg (by omega : ¬ j.max_retries + 1 ≤ j.attempt), Housekeeper.submit]
  cases hsub : sub (hk.jobs_dir ++ "/" ++ (j.name ++ "_retry" ++ toString j.attempt) ++
      "/" ++ (j.name ++ "_retry" ++ toString j.attempt) ++ hk.script_extension) with
  | none =>
    refine ⟨_, rfl, rfl, rfl, rfl, rfl, rfl, rfl, rfl, rfl, rfl, rfl, rfl, Or.inr rfl, ?_⟩
    exact mem_save_job_of_ne _ _ _ (mem_save_job_of_ne _ _ _ hmem hfresh) hfresh
  | some jid2 =>
    refine ⟨_, rfl, rfl, rfl, rfl, rfl, rfl, rfl, rfl, rfl, rfl, rfl, rfl, Or.inl rfl, ?_⟩
    exact mem_save_job_of_ne _ _ _ (mem_save_job_of_ne _ _ _ hmem hfresh) hfresh

/-- Witness for the amended C8 at a concrete failed job (attempt 1,
max_retries 2, working directory /w) with retry budget remaining. -/
theorem retry_creates_new_record_witness :
    ∃ j2, (Housekeeper.retry ⟨"jobs", "/home/u", ".pbs",
          [{ name := "t", job_id := some "7", internal_id := some "a",
             state := JobState.failed, max_retries := 2,
             working_dir := some "/w" }]⟩
        (fun _ => some "8") "b" 5 "7").1 = some j2
      ∧ j2.internal_id = some "b"
      ∧ j2.attempt = 2
      ∧ j2.name = "t_retry1"
      ∧ j2.command = ""
      ∧ j2.nodes = 1 ∧ j2.ppn = 1 ∧ j2.walltime = "04:00:00"
      ∧ j2.mem_gb = none ∧ j2.gpu = false
      ∧ j2.working_dir = some "/w"
      ∧ j2.max_retries = 2
      ∧ (j2.state = JobState.submitted ∨ j2.state = JobState.failed)
      ∧ ({ name := "t", job_id := some "7", internal_id := some "a",
           state := JobState.failed, max_retries := 2,
           working_dir := some "/w" } : Job) ∈
          (Housekeeper.retry ⟨"jobs", "/home/u", ".pbs",
              [{ name := "t", job_id := some "7", internal_id := some "a",
                 state := JobState.failed, max_retries := 2,
                 working_dir := some "/w" }]⟩
            (fun _ => some "8") "b" 5 "7").2.db :=
  retry_creates_new_record ⟨"jobs", "/home/u", ".pbs",
      [{ name := "t", job_id := some "7", internal_id := some "a",
         state := JobState.failed, max_retries := 2,
         working_dir := some "/w" }]⟩
    (fun _ => some "8") "b" 5 "7"
    { name := "t", job_id := some "7", internal_id := some "a",
      state := JobState.failed, max_retries := 2,
      working_dir := some "/w" }
    rfl (by decide) (by decide)

/-- Embeds the `LogCheckResult` dataclass of housekeeper/log_checker.py. -/
structure LogCheckResult where
  success : Bool
  log_path : String
  error_lines : List String
  has_severe : Bool
deriving Repr, DecidableEq

/-- The error patterns `check_log` searches for with its defaults
(error_patterns None, check_severe True): the three case variants of
error, plus SEVERE. Matching is plain substring containment. -/
def check_log_patterns : List String := ["error", "Error", "ERROR", "SEVERE"]

/-- The scanning loop of `check_log` (housekeeper/log_checker.py): every
line of the file is visited; a line containing any error pattern and not
whitelisted (threshold 3) is kept, stripped but never truncated, and
SEVERE lines set the severe flag. There is no line cap. -/
def check_log_lines (whitelist : List String) : List String → List String × Bool
  | [] => ([], false)
  | line :: rest =>
    let r := check_log_lines whitelist rest
    if check_log_patterns.any (fun pat => substrSearch pat line) then
      if !(is_whitelisted line whitelist 3) then
        (pyStrip line :: r.1, substrSearch "SEVERE" line || r.2)
      else r
    else r

/-- Embeds `check_log` of housekeeper/log_checker.py (whitelist already
defaulted to the empty list by the caller): a missing file is a failure
with a message line; otherwise the whole file is scanned. -/
def check_log (fs : fs_model) (log_path : String) (whitelist : List String) :
    LogCheckResult :=
  match fs.read log_path with
  | none => ⟨false, log_path, ["Log file not found: " ++ log_path], false⟩
  | some lines =>
    let r := check_log_lines whitelist lines
    ⟨decide (r.1.length = 0), log_path, r.1, r.2⟩

/-- The `check_log` scanning loop keeps exactly the stripped matching
non-whitelisted lines of the whole input: no tail selection, no line
cap, no truncation. -/
theorem check_log_lines_eq (wl : List String) (lines : List String) :
    (check_log_lines wl lines).1 =
      (lines.filter fun l =>
        check_log_patterns.any (fun pat => substrSearch pat l) &&
          !is_whitelisted l wl 3).map pyStrip := by
  induction lines with
  | nil => rfl
  | cons l ls ih =>
    simp only [check_log_lines, List.filter_cons]
    by_cases h1 : check_log_patterns.any (fun pat => substrSearch pat l) = true
    · by_cases h2 : is_whitelisted l wl 3 = true
      · simp [h1, h2, ih]
      · simp only [Bool.not_eq_true] at h2
        simp [h1, h2, ih]
    · simp only [Bool.not_eq_true] at h1
      simp [h1, ih]

/-- Counterexample for C4 as stated: the log_parser.parse path retains a
501-character error line with 503 characters (500 of content plus a
three-character ellipsis), not cut to 500; and the check_log path of
log_checker.py retains 51 surviving error lines — beyond any 50-line
cap — each kept untruncated at its full 501 characters. -/
theorem log_classification_bounds_counterexample :
    ((LogParser.parse ⟨[], 3, false⟩
        ⟨[("b.log",
           [String.mk ('e' :: 'r' :: 'r' :: 'o' :: 'r' :: ' ' :: List.replicate 495 'x')])],
          fun _ => []⟩ "b.log" 10000).error_lines.map String.length) = [503]
    ∧ ((check_log
        ⟨[("c.log",
           List.replicate 51
             (String.mk ('e' :: 'r' :: 'r' :: 'o' :: 'r' :: ' ' :: List.replicate 495 'x')))],
          fun _ => []⟩ "c.log" []).error_lines.map String.length) =
        List.replicate 51 501 := by
  constructor
  · set_option maxRecDepth 4000 in rfl
  · set_option maxRecDepth 8000 in rfl

/-- C4 as amended: one `log_parser.parse` call is bounded — it scans
only the last 10000 lines (default) of the stream, retains at most 50
surviving error lines, and cuts each retained line longer than 500
characters to its first 500 characters plus a three-character ellipsis
(so at most 503 characters) — while the separately cited
`check_log` of log_checker.py has no such bounds: it scans every line of
the file and keeps every surviving matching non-whitelisted line,
stripped but untruncated. -/
theorem log_classification_bounds (lp : LogParser) (fs1 fs2 : fs_model) (p q : String)
    (wl : List String) (l1 l2 ls : List String)
    (h1 : fs1.read p = some l1) (h2 : fs2.read p = some l2)
    (h3 : lastN 10000 l1 = lastN 10000 l2) (h4 : fs1.read q = some ls) :
    (lp.parse fs1 p 10000 = lp.parse fs2 p 10000
      ∧ (lp.parse fs1 p 10000).error_lines.length ≤ 50
      ∧ ∀ s ∈ (lp.parse fs1 p 10000).error_lines, s.length ≤ 503)
    ∧ (check_log fs1 q wl).error_lines =
        (ls.filter fun l =>
          check_log_patterns.any (fun pat => substrSearch pat l) &&
            !is_whitelisted l wl 3).map pyStrip := by
  refine ⟨⟨?_, ?_, ?_⟩, ?_⟩
  · simp only [LogParser.parse, h1, h2, h3]
  · simp only [LogParser.parse, h1]
    exact parse_lines_length_le lp _ [] 0 0 (by simp)
  · simp only [LogParser.parse, h1]
    exact parse_lines_length_all lp _ [] 0 0 (by simp)
  · simp only [check_log, h4]
    exact check_log_lines_eq wl ls

/-- Witness for the amended C4 at a one-line log file read through both
paths. -/
theorem log_classification_bounds_witness :
    ((LogParser.parse ⟨[], 3, false⟩ ⟨[("a.log", ["ERROR one"])], fun _ => []⟩ "a.log" 10000
        = LogParser.parse ⟨[], 3, false⟩ ⟨[("a.log", ["ERROR one"])], fun _ => []⟩ "a.log" 10000)
      ∧ (LogParser.parse ⟨[], 3, false⟩ ⟨[("a.log", ["ERROR one"])], fun _ => []⟩ "a.log"
          10000).error_lines.length ≤ 50
      ∧ ∀ s ∈ (LogParser.parse ⟨[], 3, false⟩ ⟨[("a.log", ["ERROR one"])], fun _ => []⟩ "a.log"
          10000).error_lines, s.length ≤ 503)
    ∧ (check_log ⟨[("a.log", ["ERROR one"])], fun _ => []⟩ "a.log" []).error_lines =
        ((["ERROR one"] : List String).filter fun l =>
          check_log_patterns.any (fun pat => substrSearch pat l) &&
            !is_whitelisted l [] 3).map pyStrip :=
  log_classification_bounds ⟨[], 3, false⟩ ⟨[("a.log", ["ERROR one"])], fun _ => []⟩
    ⟨[("a.log", ["ERROR one"])], fun _ => []⟩ "a.log" "a.log" []
    ["ERROR one"] ["ERROR one"] ["ERROR one"] rfl rfl rfl rfl
